import Mathlib

/-!
Shallow embedding of `src/YewRouter/src/component_router/router.rs`.

The file defines the data model of the router component (`Route`,
`Router`, their messages and properties) and its operations
(`create`, `update`, `change`, `view`), translated from the Rust
source, and proves the specified properties about them.

Modelling conventions:
- `RouteInfo<T>` (the location type) is an abstract type parameter
  `Loc` with decidable equality (`PartialEq` in Rust) and a default
  value (`Default` in Rust, `Inhabited` here).
- `HashMap<String, String>` captures are an abstract type `Caps`.
- `Html<Self> = VNode<Self>` is modelled by `Html α`: either the empty
  fragment produced by the fallback arm or an opaque rendered payload.
- The `Bridge<RouteAgent<T>>` handle is an abstract type parameter
  `Agent`; `Router::create`'s interactions with it (opening the bridge
  with a callback, sending a request) are recorded explicitly in
  `CreateEffects`.
- The `trace!`/`warn!` log calls in `Router::view` are recorded as a
  list of structured `LogEvent` values returned next to the `VNode`.
-/

namespace YewRouter

/-- Rust's `Result<T, E>`, as used by `PathMatcher::match_path`. -/
inductive RResult (T E : Type) where
  | Ok (val : T)
  | Err (err : E)

/-- Rust's `Result::ok`, used in `Router::view` to discard match errors. -/
def RResult.ok {T E : Type} : RResult T E → Option T
  | .Ok v => some v
  | .Err _ => none

/-- Rust's `Result::map`, used in `Router::view` on the match result. -/
def RResult.map {T U E : Type} (f : T → U) : RResult T E → RResult U E
  | .Ok v => .Ok (f v)
  | .Err e => .Err e

/-- The stable re-implementation of `Option::flatten` at the bottom of
`router.rs` (`trait Flatten`). -/
def flatten_stable {T : Type} : Option (Option T) → Option T
  | none => none
  | some v => v

/-- A rendered `VNode`: either the empty fragment built by the fallback
arm of `Router::view` or some opaque rendered content. -/
inductive Html (α : Type) where
  | emptyFragment
  | node (content : α)
deriving DecidableEq

/-- `yew_router_path_matcher::PathMatcher`: a matcher together with a
render callback.  `match_path` returns `Result<(&str, HashMap), _>`
(remaining input and captures) and `render_fn` returns `Option<Html>`
(the source applies `flatten_stable` to its result). -/
structure PathMatcher (Loc Caps E α : Type) where
  match_path : Loc → RResult (String × Caps) E
  render_fn : Caps → Option (Html α)

/-- Properties of the `Route` child component: just a `PathMatcher`. -/
structure RouteProps (Loc Caps E α : Type) where
  path : PathMatcher Loc Caps E α

/-- The `Route` child component: stores its props and nothing else. -/
structure Route (Loc Caps E α : Type) where
  props : RouteProps Loc Caps E α

/-- `Route::update`: `Message = ()`; ignores the message, mutates
nothing, returns `false`. -/
def Route.update {Loc Caps E α : Type} (r : Route Loc Caps E α) (_msg : Unit) :
    Route Loc Caps E α × Bool :=
  (r, false)

/-- `Route::change`: stores the new props and returns `true`. -/
def Route.change {Loc Caps E α : Type} (_r : Route Loc Caps E α)
    (props : RouteProps Loc Caps E α) : Route Loc Caps E α × Bool :=
  ({ props := props }, true)

/-- Properties of the `Router` component: its `Route` children.
`ChildrenWithProps` is modelled as the ordered list of the children's
props (iteration in `Router::view` only reads `route_possibility.props`). -/
structure Props (Loc Caps E α : Type) where
  children : List (RouteProps Loc Caps E α)

/-- `Msg<T>` of the `Router` component. -/
inductive Msg (Loc : Type) where
  | UpdateRoute (route : Loc)

/-- `Router` component state: current route, props (children), and the
bridge handle to the `RouteAgent`. -/
structure Router (Loc Caps E α Agent : Type) where
  route : Loc
  props : Props Loc Caps E α
  router_agent : Agent

/-- `RouteRequest` messages sent to the `RouteAgent`; only
`GetCurrentRoute` is used in `router.rs`. -/
inductive RouteRequest where
  | GetCurrentRoute
deriving DecidableEq

/-- The observable result of `Router::create`: the constructed state,
the callback registered with the bridge, and the requests sent on the
bridge before returning. -/
structure CreateEffects (Loc Caps E α Agent : Type) where
  router : Router Loc Caps E α Agent
  callback : Loc → Msg Loc
  sent : List RouteRequest

/-- `Router::create`: registers `Msg::UpdateRoute` as the bridge
callback, opens the bridge (`agent` stands for the handle returned by
`RouteAgent::bridge`), sends one `GetCurrentRoute` request, and stores
`Default::default()` as the route together with the given props. -/
def Router.create {Loc Caps E α Agent : Type} [Inhabited Loc]
    (props : Props Loc Caps E α) (agent : Agent) :
    CreateEffects Loc Caps E α Agent :=
  { router := { route := default, props := props, router_agent := agent }
    callback := Msg.UpdateRoute
    sent := [RouteRequest.GetCurrentRoute] }

/-- `Router::update`: on `Msg::UpdateRoute`, computes
`did_change = self.route != route`, stores the new route
unconditionally, and returns `did_change`. -/
def Router.update {Loc Caps E α Agent : Type} [DecidableEq Loc]
    (s : Router Loc Caps E α Agent) (msg : Msg Loc) :
    Router Loc Caps E α Agent × Bool :=
  match msg with
  | .UpdateRoute route =>
      let did_change := decide (s.route ≠ route)
      ({ s with route := route }, did_change)

/-- `Router::change`: stores the new props and returns `true`. -/
def Router.change {Loc Caps E α Agent : Type}
    (s : Router Loc Caps E α Agent) (props : Props Loc Caps E α) :
    Router Loc Caps E α Agent × Bool :=
  ({ s with props := props }, true)

/-- Structured log events emitted by `Router::view`:
`trace!("Routing one of ... routes for ...")`, `trace!("Route matched.")`,
and `warn!("Routing failed. No default case was provided.")`. -/
inductive LogEvent (Loc : Type) where
  | traceRouting (count : Nat) (route : Loc)
  | traceMatched
  | warnNoMatch
deriving DecidableEq

/-- Whether a log event is the warn-level no-match diagnostic. -/
def LogEvent.isWarn {Loc : Type} : LogEvent Loc → Bool
  | .warnNoMatch => true
  | _ => false

/-- The closure passed to `filter_map` in `Router::view`:
`route_possibility.props.path.match_path(&self.route)
  .map(|(_rest, hm)| (render_fn)(&hm)).ok().flatten_stable()`. -/
def try_match_render {Loc Caps E α : Type} (route : Loc)
    (route_possibility : RouteProps Loc Caps E α) : Option (Html α) :=
  flatten_stable
    (RResult.ok
      (RResult.map (fun p => route_possibility.path.render_fn p.2)
        (route_possibility.path.match_path route)))

/-- `Router::view`: traces the attempt, scans the children in order
with `filter_map(..).next()`, returns the first produced `Html` (with a
matched trace), or the empty fragment with a warn diagnostic. -/
def Router.view {Loc Caps E α Agent : Type}
    (s : Router Loc Caps E α Agent) : Html α × List (LogEvent Loc) :=
  let pre := LogEvent.traceRouting s.props.children.length s.route
  match (s.props.children.filterMap (try_match_render s.route)).head? with
  | some x => (x, [pre, LogEvent.traceMatched])
  | none => (Html.emptyFragment, [pre, LogEvent.warnNoMatch])

/-! ## Concrete instances used for counterexamples and witnesses -/

/-- A route definition whose matcher always succeeds but whose render
callback produces no output. -/
def matchButRenderNone : RouteProps Unit Unit Unit Nat :=
  { path := { match_path := fun _ => RResult.Ok ("", ()),
              render_fn := fun _ => none } }

/-- A route definition whose matcher always succeeds and whose render
callback produces `Html.node 2`. -/
def matchAndRenderTwo : RouteProps Unit Unit Unit Nat :=
  { path := { match_path := fun _ => RResult.Ok ("", ()),
              render_fn := fun _ => some (Html.node 2) } }

/-- A router whose first child matches but renders nothing and whose
second child matches and renders `Html.node 2`. -/
def twoChildRouter : Router Unit Unit Unit Nat Unit :=
  { route := ()
    props := { children := [matchButRenderNone, matchAndRenderTwo] }
    router_agent := () }

/-- A router with no children. -/
def emptyRouter : Router Unit Unit Unit Nat Unit :=
  { route := (), props := { children := [] }, router_agent := () }

/-- A route definition whose matcher always errors. -/
def errMatcherChild : RouteProps Unit Unit Unit Nat :=
  { path := { match_path := fun _ => RResult.Err (),
              render_fn := fun _ => some (Html.node 7) } }

/-- A childless router holding the agent handle `true`. -/
def agentTrueRouter : Router Unit Unit Unit Nat Bool :=
  { route := (), props := { children := [] }, router_agent := true }

/-- A childless router holding the agent handle `false`. -/
def agentFalseRouter : Router Unit Unit Unit Nat Bool :=
  { route := (), props := { children := [] }, router_agent := false }

/-! ## Helper lemmas -/

/-- If every element before index `i` maps to `none` and the element at
`i` maps to `some v`, then `v` heads the `filterMap`. -/
theorem filterMap_head_of_first {β γ : Type} (f : β → Option γ) (v : γ) :
    ∀ (l : List β) (i : Nat) (hi : i < l.length),
      (∀ j (hj : j < i), f (l.get ⟨j, Nat.lt_trans hj hi⟩) = none) →
      f (l.get ⟨i, hi⟩) = some v →
      (l.filterMap f).head? = some v := by
  intro l
  induction l with
  | nil => intro i hi _ _; exact absurd hi (Nat.not_lt_zero i)
  | cons a t ih =>
    intro i hi hbefore hit
    cases i with
    | zero =>
      simp only [List.get] at hit
      simp [List.filterMap_cons, hit]
    | succ j =>
      have ha : f a = none := hbefore 0 (Nat.succ_pos j)
      have hj' : j < t.length := Nat.lt_of_succ_lt_succ hi
      have hrec := ih j hj'
        (fun k hk => hbefore (k + 1) (Nat.succ_lt_succ hk)) hit
      simpa [List.filterMap_cons, ha] using hrec

/-- A matcher error makes `try_match_render` yield `none`. -/
theorem try_match_render_of_err {Loc Caps E α : Type}
    (route : Loc) (rp : RouteProps Loc Caps E α) (e : E)
    (h : rp.path.match_path route = RResult.Err e) :
    try_match_render route rp = none := by
  unfold try_match_render
  rw [h]
  rfl

/-- A successful match whose render callback yields `none` makes
`try_match_render` yield `none`. -/
theorem try_match_render_of_render_none {Loc Caps E α : Type}
    (route : Loc) (rp : RouteProps Loc Caps E α) (rest : String) (caps : Caps)
    (hm : rp.path.match_path route = RResult.Ok (rest, caps))
    (hr : rp.path.render_fn caps = none) :
    try_match_render route rp = none := by
  unfold try_match_render
  rw [hm]
  simp [RResult.map, RResult.ok, flatten_stable, hr]

/-- A child contributing `none` to the scan does not affect the
rendered output (the first pair component of `view`). -/
theorem view_fst_cons_none {Loc Caps E α Agent : Type}
    (route : Loc) (rp : RouteProps Loc Caps E α)
    (hnone : try_match_render route rp = none)
    (tl : List (RouteProps Loc Caps E α)) (agent agent' : Agent) :
    ((Router.mk route (Props.mk (rp :: tl)) agent).view).1 =
      ((Router.mk route (Props.mk tl) agent').view).1 := by
  have hfm : (rp :: tl).filterMap (try_match_render route) =
      tl.filterMap (try_match_render route) := by
    simp [List.filterMap_cons, hnone]
  simp only [Router.view, hfm]
  cases (tl.filterMap (try_match_render route)).head? <;> rfl

/-! ## Claim theorems -/

/-- C1: `Router::update` on `Msg::UpdateRoute` always stores the
incoming location, signals re-render exactly when the incoming location
differs from the previously stored one, and a second consecutive
notification carrying the identical location signals nothing. -/
theorem update_signals_iff_changed {Loc Caps E α Agent : Type} [DecidableEq Loc]
    (s : Router Loc Caps E α Agent) (loc : Loc) :
    (s.update (Msg.UpdateRoute loc)).1.route = loc ∧
    ((s.update (Msg.UpdateRoute loc)).2 = true ↔ s.route ≠ loc) ∧
    ((s.update (Msg.UpdateRoute loc)).1.update (Msg.UpdateRoute loc)).2 = false := by
  refine ⟨rfl, ?_, ?_⟩ <;> simp [Router.update]

/-- C2 (counterexample): the first child's matcher succeeds on the
current location, yet `Router::view` returns the second child's output
(the first child's render callback produced nothing), so render does
not always return the output of the first definition whose matcher
succeeds, and can return a later definition's output. -/
theorem view_returns_later_child_despite_earlier_match :
    (matchButRenderNone.path.match_path ()).ok = some ("", ()) ∧
    matchButRenderNone.path.render_fn () = none ∧
    matchAndRenderTwo.path.render_fn () = some (Html.node 2) ∧
    (twoChildRouter.view).1 = Html.node 2 :=
  ⟨rfl, rfl, rfl, rfl⟩

/-- C2 (amended): `Router::view` returns the output of the first
definition in declaration order whose matcher succeeds AND whose render
callback produces an output; definitions that match but render nothing
are skipped, and scanning stops at the first definition that produces
output — later definitions never supply the result. -/
theorem view_first_producing_child_wins {Loc Caps E α Agent : Type}
    (s : Router Loc Caps E α Agent) (i : Nat) (hi : i < s.props.children.length)
    (v : Html α)
    (hbefore : ∀ j (hj : j < i),
      try_match_render s.route (s.props.children.get ⟨j, Nat.lt_trans hj hi⟩) = none)
    (hit : try_match_render s.route (s.props.children.get ⟨i, hi⟩) = some v) :
    (s.view).1 = v := by
  have h := filterMap_head_of_first (try_match_render s.route) v
    s.props.children i hi hbefore hit
  simp [Router.view, h]

/-- Witness for the amended C2 at a concrete router. -/
theorem view_first_producing_child_wins_witness :
    (twoChildRouter.view).1 = Html.node 2 :=
  view_first_producing_child_wins twoChildRouter 1 (by decide) (Html.node 2)
    (by
      intro j hj
      have h0 : j = 0 := by omega
      subst h0
      rfl)
    rfl

/-- C3: when no child's matcher produces a successful match on the
current route (in particular when there are no children),
`Router::view` returns the empty-fragment fallback and emits the
no-match warning diagnostic exactly once. -/
theorem view_no_match_fallback {Loc Caps E α Agent : Type}
    (s : Router Loc Caps E α Agent)
    (h : ∀ rp ∈ s.props.children, (rp.path.match_path s.route).ok = none) :
    (s.view).1 = Html.emptyFragment ∧
    ((s.view).2.countP (fun e => LogEvent.isWarn e)) = 1 := by
  have hall : ∀ rp ∈ s.props.children, try_match_render s.route rp = none := by
    intro rp hrp
    cases hmp : rp.path.match_path s.route with
    | Ok val =>
      have := h rp hrp
      rw [hmp] at this
      exact absurd this (by simp [RResult.ok])
    | Err e => exact try_match_render_of_err s.route rp e hmp
  have hnil : s.props.children.filterMap (try_match_render s.route) = [] :=
    List.filterMap_eq_nil_iff.mpr hall
  simp [Router.view, hnil, List.countP_cons, LogEvent.isWarn]

/-- Witness for C3 at the childless router. -/
theorem view_no_match_fallback_witness :
    (emptyRouter.view).1 = Html.emptyFragment ∧
    ((emptyRouter.view).2.countP (fun e => LogEvent.isWarn e)) = 1 :=
  view_no_match_fallback emptyRouter (by intro rp hrp; cases hrp)

/-- C4: `Router::change` unconditionally stores the new props and
always returns `true`, performing no equality comparison. -/
theorem change_stores_and_rerenders {Loc Caps E α Agent : Type}
    (s : Router Loc Caps E α Agent) (props : Props Loc Caps E α) :
    (s.change props).1.props = props ∧ (s.change props).2 = true :=
  ⟨rfl, rfl⟩

/-- C5: `Router::create` stores the supplied props, sets the route to
the default value (so it stays the default until the first notification
is processed), keeps the opened bridge handle with `Msg::UpdateRoute`
as its callback, and sends exactly one `GetCurrentRoute` request. -/
theorem create_initial_state {Loc Caps E α Agent : Type} [Inhabited Loc]
    (props : Props Loc Caps E α) (agent : Agent) :
    (Router.create props agent).router.route = (default : Loc) ∧
    (Router.create props agent).router.props = props ∧
    (Router.create props agent).router.router_agent = agent ∧
    (Router.create props agent).callback = Msg.UpdateRoute ∧
    (Router.create props agent).sent = [RouteRequest.GetCurrentRoute] :=
  ⟨rfl, rfl, rfl, rfl, rfl⟩

/-- C6: `Router::view` is deterministic and idempotent — as a pure
function of the state (the source takes `&self`, so it can mutate
nothing), its output, logs included, depends only on the stored route
and the children; two states agreeing on those (even with different
agent handles) render identically, so repeated calls without an
intervening state change give identical output. -/
theorem view_deterministic {Loc Caps E α Agent : Type}
    (s t : Router Loc Caps E α Agent)
    (hroute : s.route = t.route)
    (hchildren : s.props.children = t.props.children) :
    s.view = t.view := by
  obtain ⟨r, ⟨c⟩, a⟩ := s
  obtain ⟨r', ⟨c'⟩, a'⟩ := t
  dsimp only at hroute hchildren
  subst hroute
  subst hchildren
  rfl

/-- Witness for C6: two routers differing only in the agent handle
render identically. -/
theorem view_deterministic_witness :
    agentTrueRouter.view = agentFalseRouter.view :=
  view_deterministic agentTrueRouter agentFalseRouter rfl rfl

/-- C7: a matcher returning an error result is treated exactly like a
non-match: that child contributes no output, the scan continues with
the remaining children (the rendered output equals the output with the
erroring child absent), and the error never escapes `view`. -/
theorem matcher_error_is_skipped {Loc Caps E α Agent : Type}
    (route : Loc) (rp : RouteProps Loc Caps E α) (e : E)
    (h : rp.path.match_path route = RResult.Err e)
    (tl : List (RouteProps Loc Caps E α)) (agent agent' : Agent) :
    try_match_render route rp = none ∧
    ((Router.mk route (Props.mk (rp :: tl)) agent).view).1 =
      ((Router.mk route (Props.mk tl) agent').view).1 := by
  have hnone := try_match_render_of_err route rp e h
  exact ⟨hnone, view_fst_cons_none route rp hnone tl agent agent'⟩

/-- Witness for C7: a concrete erroring matcher is skipped. -/
theorem matcher_error_is_skipped_witness :
    try_match_render () errMatcherChild = none ∧
    ((Router.mk () (Props.mk [errMatcherChild]) ()).view).1 =
      ((Router.mk () (Props.mk ([] : List (RouteProps Unit Unit Unit Nat))) ()).view).1 :=
  matcher_error_is_skipped () errMatcherChild () rfl [] () ()

/-- C8: frame conditions — `Router::update` leaves the props and the
agent handle unchanged, and `Router::change` leaves the stored route
and the agent handle unchanged. -/
theorem update_change_frame {Loc Caps E α Agent : Type} [DecidableEq Loc]
    (s : Router Loc Caps E α Agent) (msg : Msg Loc) (props : Props Loc Caps E α) :
    (s.update msg).1.props = s.props ∧
    (s.update msg).1.router_agent = s.router_agent ∧
    (s.change props).1.route = s.route ∧
    (s.change props).1.router_agent = s.router_agent := by
  cases msg
  exact ⟨rfl, rfl, rfl, rfl⟩

/-- C9: a child whose matcher succeeds but whose render callback
returns `None` is skipped — the rendered output equals the output with
that child absent, so a later child can win — and the no-match
fallback warning fires exactly when no child produces both a
successful match and a rendered output. -/
theorem match_without_output_skipped {Loc Caps E α Agent : Type}
    (route : Loc) (rp : RouteProps Loc Caps E α) (rest : String) (caps : Caps)
    (hm : rp.path.match_path route = RResult.Ok (rest, caps))
    (hr : rp.path.render_fn caps = none)
    (tl : List (RouteProps Loc Caps E α)) (agent agent' : Agent) :
    (((Router.mk route (Props.mk (rp :: tl)) agent).view).1 =
        ((Router.mk route (Props.mk tl) agent').view).1) ∧
    ∀ s : Router Loc Caps E α Agent,
      LogEvent.warnNoMatch ∈ (s.view).2 ↔
        ∀ c ∈ s.props.children, try_match_render s.route c = none := by
  refine ⟨view_fst_cons_none route rp
    (try_match_render_of_render_none route rp rest caps hm hr) tl agent agent', ?_⟩
  intro s
  cases hh : (s.props.children.filterMap (try_match_render s.route)).head? with
  | some x =>
    have hne : ¬ ∀ c ∈ s.props.children, try_match_render s.route c = none := by
      intro hall
      rw [List.filterMap_eq_nil_iff.mpr hall] at hh
      simp at hh
    simp [Router.view, hh, hne]
  | none =>
    have hnil : s.props.children.filterMap (try_match_render s.route) = [] :=
      List.head?_eq_none_iff.mp hh
    have hall := List.filterMap_eq_nil_iff.mp hnil
    simp only [Router.view, hh]
    simpa using hall

/-- Witness for C9 at concrete routers. -/
theorem match_without_output_skipped_witness :
    (((Router.mk () (Props.mk [matchButRenderNone]) ()).view).1 =
        ((Router.mk () (Props.mk ([] : List (RouteProps Unit Unit Unit Nat))) ()).view).1) ∧
    (LogEvent.warnNoMatch ∈ ((Router.mk () (Props.mk ([] : List (RouteProps Unit Unit Unit Nat))) ()).view).2 ↔
        ∀ c ∈ ([] : List (RouteProps Unit Unit Unit Nat)), try_match_render () c = none) :=
  ⟨(match_without_output_skipped () matchButRenderNone "" () rfl rfl [] () ()).1,
   (match_without_output_skipped () matchButRenderNone "" () rfl rfl [] () ()).2
     (Router.mk () (Props.mk ([] : List (RouteProps Unit Unit Unit Nat))) ())⟩

/-- C10: `Route::update` never requests a re-render (returns `false`
and leaves the state untouched for every message), while
`Route::change` stores the new props and returns `true`. -/
theorem route_child_update_change {Loc Caps E α : Type}
    (r : Route Loc Caps E α) (msg : Unit) (props : RouteProps Loc Caps E α) :
    r.update msg = (r, false) ∧
    r.change props = ({ props := props }, true) :=
  ⟨rfl, rfl⟩

end YewRouter
